import Mathlib

/-!
# Verification of the trademark similarity / opposition-prediction core

Shallow embedding of the `brandability` repository's core pipeline:

* `trademark_core/similarity.py` — visual, aural, conceptual and overall
  mark-similarity scoring;
* `trademark_core/llm.py` — the structured-output Reasoning Client wrapper
  (`generate_structured_content`), the conceptual-similarity resolver, the
  goods/services likelihood assessor and the batch orchestrator
  (`batch_process_goods_services`);
* `api/main.py` — the `/case_prediction` aggregation endpoint.

External collaborators (the Gemini reasoning service, the `metaphone`
phonetic library) are modelled as explicit function parameters; the
`Levenshtein.ratio` library function is embedded concretely (indel distance).
Python `float` scores are modelled as `ℚ`.
-/

namespace Brandability

/-! ## Data model

`models.py` itself is not part of the sources; the record shapes below are
reconstructed from their uses in `llm.py`, `api/main.py` and the unit tests
(`tests/unit/test_models.py`). -/

/-- The closed five-value similarity enumeration (`models.EnumStr`,
values attested by `score_to_enum` in `similarity.py` and the model tests). -/
inductive SimilarityLevel where
  | dissimilar
  | low
  | moderate
  | high
  | identical
deriving DecidableEq, Repr

/-- The string rendering of a `SimilarityLevel` (the literal `EnumStr` value). -/
def SimilarityLevel.str : SimilarityLevel → String
  | .dissimilar => "dissimilar"
  | .low => "low"
  | .moderate => "moderate"
  | .high => "high"
  | .identical => "identical"

/-- `models.Mark` as used by the similarity pipeline. -/
structure Mark where
  wordmark : String
  is_registered : Bool := false
  registration_number : Option String := none
deriving DecidableEq, Repr

/-- `models.GoodService`: one goods/services item. -/
structure GoodService where
  term : String
  nice_class : Nat
deriving DecidableEq, Repr

/-- `models.MarkSimilarityOutput`: the four-axis mark-similarity verdict. -/
structure MarkSimilarityOutput where
  visual : SimilarityLevel
  aural : SimilarityLevel
  conceptual : SimilarityLevel
  overall : SimilarityLevel
  reasoning : Option String := none
deriving DecidableEq, Repr

/-- `models.ConfusionType`: only meaningful when confusion is asserted. -/
inductive ConfusionType where
  | direct
  | indirect
deriving DecidableEq, Repr

/-- `models.GoodServiceLikelihoodOutput`: per-pair goods/services assessment. -/
structure GoodServiceLikelihoodOutput where
  are_competitive : Bool
  are_complementary : Bool
  similarity_score : ℚ
  likelihood_of_confusion : Bool
  confusion_type : Option ConfusionType
deriving DecidableEq, Repr

/-- `models.OppositionOutcome`: final three-way case outcome. -/
structure OppositionOutcome where
  result : String
  confidence : ℚ
  reasoning : String
deriving DecidableEq, Repr

/-- `models.CasePredictionRequest` as consumed by the `/case_prediction`
endpoint in `api/main.py`. -/
structure CasePredictionRequest where
  mark_similarity : MarkSimilarityOutput
  goods_services_likelihoods : List GoodServiceLikelihoodOutput
deriving DecidableEq, Repr

/-- `models.CasePredictionResult`: the endpoint's aggregate response. -/
structure CasePredictionResult where
  mark_comparison : MarkSimilarityOutput
  goods_services_likelihoods : List GoodServiceLikelihoodOutput
  opposition_outcome : OppositionOutcome
deriving DecidableEq, Repr

/-! ## The `Levenshtein.ratio` library function

`python-Levenshtein`'s `ratio(a, b)` equals
`(|a| + |b| - indel(a, b)) / (|a| + |b|)` where `indel` is the edit distance
with insertions and deletions of cost 1 and no substitutions (equivalently,
substitution cost 2), and `ratio` of two empty strings is defined as 1.
The distance is computed with an explicit fuel argument (one unit per
recursion step; each step shortens the combined input, so
`|a| + |b|` fuel always suffices), keeping the definition structurally
recursive and hence evaluable by `decide`. -/

/-- Fuelled indel edit distance on character lists. -/
def indelFuel : Nat → List Char → List Char → Nat
  | _, [], ys => ys.length
  | _, x :: xs, [] => (x :: xs).length
  | 0, x :: xs, y :: ys => (x :: xs).length + (y :: ys).length
  | fuel + 1, x :: xs, y :: ys =>
      if x = y then indelFuel fuel xs ys
      else 1 + min (indelFuel fuel xs (y :: ys)) (indelFuel fuel (x :: xs) ys)

/-- The indel edit distance (`|a| + |b|` fuel always suffices). -/
def indel (xs ys : List Char) : Nat :=
  indelFuel (xs.length + ys.length) xs ys

/-- `Levenshtein.ratio`, the normalized edit-similarity ratio in `[0, 1]`. -/
def levRatio (xs ys : List Char) : ℚ :=
  if xs.length + ys.length = 0 then 1
  else ((xs.length + ys.length : ℚ) - indel xs ys) / (xs.length + ys.length)

/-! ## Normalization (`mark.lower().strip()`) -/

/-- Python `str.lower()` on a character (ASCII case mapping). -/
def pyLowerChar (c : Char) : Char := c.toLower

/-- Python `str.strip()` on a character list: drop whitespace at both ends. -/
def stripChars (l : List Char) : List Char :=
  ((l.dropWhile Char.isWhitespace).reverse.dropWhile Char.isWhitespace).reverse

/-- `mark.lower().strip()` from `similarity.py`, as a character list. -/
def normalizeMark (s : String) : List Char :=
  stripChars (s.data.map pyLowerChar)

/-! ## `calculate_visual_similarity` (`similarity.py`, lines 24-46) -/

/-- `calculate_visual_similarity`: normalize both marks; `1.0` when both are
empty, `0.0` when exactly one is empty, otherwise `Levenshtein.ratio`. -/
def calculate_visual_similarity (mark1 mark2 : String) : ℚ :=
  let m1 := normalizeMark mark1
  let m2 := normalizeMark mark2
  if m1 = [] ∧ m2 = [] then 1
  else if m1 = [] ∨ m2 = [] then 0
  else levRatio m1 m2

example : calculate_visual_similarity "  " "" = 1 := by decide
example : normalizeMark "Example" = "example".data := by decide
example : indel "abc".data "abd".data = 2 := by decide

/-! ### Facts about `indelFuel`, `indel` and `levRatio` -/

theorem indelFuel_le (fuel : Nat) (xs ys : List Char) :
    indelFuel fuel xs ys ≤ xs.length + ys.length := by
  induction fuel generalizing xs ys with
  | zero => cases xs <;> cases ys <;> simp [indelFuel]
  | succ fuel ih =>
    cases xs with
    | nil => simp [indelFuel]
    | cons x xs =>
      cases ys with
      | nil => simp [indelFuel]
      | cons y ys =>
        simp only [indelFuel, List.length_cons]
        by_cases h : x = y
        · have := ih xs ys
          simp only [h, if_true]
          omega
        · have h1 := ih xs (y :: ys)
          have h2 := ih (x :: xs) ys
          simp only [h, if_false, List.length_cons] at *
          omega

theorem indelFuel_comm (fuel : Nat) (xs ys : List Char) :
    indelFuel fuel xs ys = indelFuel fuel ys xs := by
  induction fuel generalizing xs ys with
  | zero => cases xs <;> cases ys <;> simp [indelFuel, Nat.add_comm]
  | succ fuel ih =>
    cases xs with
    | nil => cases ys <;> simp [indelFuel]
    | cons x xs =>
      cases ys with
      | nil => simp [indelFuel]
      | cons y ys =>
        simp only [indelFuel]
        by_cases h : x = y
        · simp [h, ih xs ys]
        · have h' : ¬ y = x := fun hyx => h hyx.symm
          simp only [h, h', if_false]
          rw [ih xs (y :: ys), ih (x :: xs) ys, Nat.min_comm]

theorem indelFuel_self (fuel : Nat) (xs : List Char) (h : xs.length ≤ fuel) :
    indelFuel fuel xs xs = 0 := by
  induction xs generalizing fuel with
  | nil => cases fuel <;> simp [indelFuel]
  | cons x xs ih =>
    cases fuel with
    | zero => simp at h
    | succ fuel =>
      simp only [List.length_cons] at h
      simp [indelFuel, ih fuel (by omega)]

theorem indel_le (xs ys : List Char) : indel xs ys ≤ xs.length + ys.length :=
  indelFuel_le _ xs ys

theorem indel_comm (xs ys : List Char) : indel xs ys = indel ys xs := by
  unfold indel
  rw [Nat.add_comm xs.length ys.length, indelFuel_comm]

theorem indel_self (xs : List Char) : indel xs xs = 0 :=
  indelFuel_self _ xs (by omega)

theorem levRatio_comm (xs ys : List Char) : levRatio xs ys = levRatio ys xs := by
  unfold levRatio
  rw [indel_comm, Nat.add_comm xs.length ys.length,
    add_comm (xs.length : ℚ) (ys.length : ℚ)]

theorem levRatio_self (xs : List Char) : levRatio xs xs = 1 := by
  unfold levRatio
  rcases Nat.eq_zero_or_pos xs.length with h | h
  · simp [h]
  · rw [if_neg (by omega), indel_self]
    push_cast
    rw [sub_zero, div_self]
    positivity

theorem levRatio_nonneg (xs ys : List Char) : 0 ≤ levRatio xs ys := by
  unfold levRatio
  split
  · norm_num
  · apply div_nonneg
    · have h := indel_le xs ys
      have : (indel xs ys : ℚ) ≤ (xs.length : ℚ) + (ys.length : ℚ) := by
        exact_mod_cast h
      linarith
    · positivity

theorem levRatio_le_one (xs ys : List Char) : levRatio xs ys ≤ 1 := by
  unfold levRatio
  split
  · norm_num
  · rename_i h
    have hpos : (0 : ℚ) < (xs.length + ys.length : ℚ) := by
      have : 0 < xs.length + ys.length := Nat.pos_of_ne_zero h
      exact_mod_cast this
    rw [div_le_one hpos]
    have : (0 : ℚ) ≤ (indel xs ys : ℚ) := by positivity
    linarith

/-! ## `calculate_aural_similarity` (`similarity.py`, lines 48-86)

The `doublemetaphone` library is an external collaborator: it is modelled as
an arbitrary function `dm` from a (normalized) mark to its primary and
alternate phonetic codes, exactly as the source consumes it. -/

/-- Maximum of a head value and a list (`max([primary_sim] + alt_sims)`). -/
def listMax (a : ℚ) (l : List ℚ) : ℚ := l.foldl max a

/-- `calculate_aural_similarity`: normalize both marks, handle empties as in
the visual scorer, then compare double-metaphone codes: primary-vs-primary
always, plus the alternate combinations whose codes are non-empty, returning
the highest `Levenshtein.ratio` found. -/
def calculate_aural_similarity (dm : List Char → List Char × List Char)
    (mark1 mark2 : String) : ℚ :=
  let m1 := normalizeMark mark1
  let m2 := normalizeMark mark2
  if m1 = [] ∧ m2 = [] then 1
  else if m1 = [] ∨ m2 = [] then 0
  else
    let code1_primary := (dm m1).1
    let code1_alt := (dm m1).2
    let code2_primary := (dm m2).1
    let code2_alt := (dm m2).2
    let primary_sim := levRatio code1_primary code2_primary
    let alt_sims :=
      (if code1_alt ≠ [] ∧ code2_alt ≠ [] then [levRatio code1_alt code2_alt] else []) ++
      (if code1_primary ≠ [] ∧ code2_alt ≠ [] then [levRatio code1_primary code2_alt] else []) ++
      (if code1_alt ≠ [] ∧ code2_primary ≠ [] then [levRatio code1_alt code2_primary] else [])
    if alt_sims = [] then primary_sim else listMax primary_sim alt_sims

/-! ## The Reasoning Client (`generate_structured_content`, `llm.py` 741-870)

The external Gemini service is modelled as an oracle `gen` mapping the
attempt number and the sampling temperature in force at that attempt to one
of the three response classes the source distinguishes: a parsed structured
payload, a structurally empty response, or an API error (transient or not).
The model-name resolution, the 3-attempt retry loop with its
temperature-escalation schedule (`min(0.6, temperature + 0.1 * attempt)`),
and the failure classes are embedded from the source; alongside the result
the embedding records the temperature used at each attempt actually made. -/

/-- One attempt's outcome from the external reasoning service. -/
inductive CallResult (α : Type) where
  | parsed (a : α)
  | empty
  | apiError (transient : Bool)

/-- The error classes surfaced by `generate_structured_content`. -/
inductive LlmError where
  | unsupportedModel (m : String)
  | invalidOutput
  | apiError
deriving DecidableEq, Repr

/-- `DEFAULT_MODEL` (`llm.py` line 205). -/
def DEFAULT_MODEL : String := "gemini-2.5-pro-preview-03-25"

/-- `SUPPORTED_MODELS` (`llm.py` line 213). -/
def SUPPORTED_MODELS : List String :=
  ["gemini-2.5-pro-preview-03-25", "gemini-2.5-flash-preview-04-17"]

/-- `DEFAULT_TEMPERATURE` (= 0.2). -/
def DEFAULT_TEMPERATURE : ℚ := 2/10

/-- `DEFAULT_TEMPERATURE_INCREMENT` (= 0.1). -/
def DEFAULT_TEMPERATURE_INCREMENT : ℚ := 1/10

/-- The body of the `for attempt in range(1, max_attempts + 1)` loop of
`generate_structured_content`: `attempts` is the list of remaining attempt
indices (initially `[1, 2, 3]`), `temperature` the original sampling
parameter, `cur` the current `config.temperature`, and `trace` the
temperatures of the attempts made so far (most recent first). -/
def gscLoop {α : Type} (gen : Nat → ℚ → CallResult α) (temperature : ℚ) :
    List Nat → ℚ → List ℚ → Except LlmError α × List ℚ
  | [], _, trace =>
      -- unreachable fall-through `raise ValueError("LLM returned empty parsed data")`
      (.error .invalidOutput, trace.reverse)
  | attempt :: rest, cur, trace =>
      match gen attempt cur with
      | .parsed a => (.ok a, (cur :: trace).reverse)
      | .empty =>
          if attempt < 3 then
            -- `config.temperature = min(0.6, temperature + (0.1 * attempt))`
            gscLoop gen temperature rest
              (min (6/10) (temperature + DEFAULT_TEMPERATURE_INCREMENT * attempt))
              (cur :: trace)
          else
            -- `raise ValueError("LLM returned empty parsed data after multiple attempts")`
            (.error .invalidOutput, (cur :: trace).reverse)
      | .apiError transient =>
          if transient ∧ attempt < 3 then
            -- transient error: retry within the budget, config unchanged
            gscLoop gen temperature rest cur (cur :: trace)
          else
            -- other API errors, or the last attempt: re-raise
            (.error .apiError, (cur :: trace).reverse)

/-- `generate_structured_content`: resolve the model (fail fast on an
unsupported override), then run at most `max_attempts = 3` attempts.
Returns the outcome together with the temperature used at each attempt. -/
def generate_structured_content {α : Type} (gen : Nat → ℚ → CallResult α)
    (temperature : ℚ) (model : Option String) : Except LlmError α × List ℚ :=
  match model with
  | some m =>
      if m ∈ SUPPORTED_MODELS then gscLoop gen temperature [1, 2, 3] temperature []
      else (.error (.unsupportedModel m), [])
  | none => gscLoop gen temperature [1, 2, 3] temperature []

/-! ## Conceptual similarity (`llm.py` 705-738, `similarity.py` 88-103) -/

/-- `models.ConceptualSimilarityScore`: the structured score payload. -/
structure ConceptualSimilarityScore where
  score : ℚ
deriving DecidableEq, Repr

set_option linter.unusedVariables false in
/-- `_get_conceptual_similarity_score_from_llm`: build the conceptual prompt
from the two marks (the oracle `gen` stands for the external model's response
behaviour on that prompt), call `generate_structured_content` at temperature
0.1, and return the parsed score; on any failure — API error, validation or
parsing error, or any other exception — return the neutral fallback 0.5. -/
def get_conceptual_similarity_score_from_llm
    (gen : Nat → ℚ → CallResult ConceptualSimilarityScore)
    (model : Option String) (mark1 mark2 : String) : ℚ :=
  match (generate_structured_content gen (1/10) model).1 with
  | .ok result => result.score
  | .error _ => 1/2

/-- `calculate_conceptual_similarity` (`similarity.py`): a direct wrapper
around `_get_conceptual_similarity_score_from_llm` (no model override). -/
def calculate_conceptual_similarity
    (gen : Nat → ℚ → CallResult ConceptualSimilarityScore)
    (mark1 mark2 : String) : ℚ :=
  get_conceptual_similarity_score_from_llm gen none mark1 mark2

/-! ## `calculate_overall_similarity` (`similarity.py`, lines 105-161) -/

/-- `score_to_enum` (nested in `calculate_overall_similarity`): fixed
threshold mapping from a numeric score to a `SimilarityLevel`. -/
def score_to_enum (score : ℚ) : SimilarityLevel :=
  if score > 9/10 then .identical
  else if score > 7/10 then .high
  else if score > 5/10 then .moderate
  else if score > 3/10 then .low
  else .dissimilar

/-- Python `f"{q:.2f}"` for the non-negative scores at hand: round to
hundredths (ties to even, as in Python float formatting) and print with two
decimal places. -/
def formatQ2 (q : ℚ) : String :=
  let scaled := q * 100
  let fl := ⌊scaled⌋
  let frac := scaled - fl
  let n : ℤ :=
    if frac < 1/2 then fl
    else if frac > 1/2 then fl + 1
    else if fl % 2 = 0 then fl else fl + 1
  let ip := (n / 100).toNat
  let fp := (n % 100).toNat
  toString ip ++ "." ++ (if fp < 10 then "0" ++ toString fp else toString fp)

/-- `calculate_overall_similarity`: compute the three per-axis scores, map
each through `score_to_enum`, blend them with the fixed weights
0.40/0.35/0.25 into an overall numeric score, and re-map that through
`score_to_enum` for the overall level. -/
def calculate_overall_similarity (dm : List Char → List Char × List Char)
    (gen : Nat → ℚ → CallResult ConceptualSimilarityScore)
    (mark1 mark2 : Mark) : MarkSimilarityOutput :=
  let visual_sim := calculate_visual_similarity mark1.wordmark mark2.wordmark
  let aural_sim := calculate_aural_similarity dm mark1.wordmark mark2.wordmark
  let conceptual_sim := calculate_conceptual_similarity gen mark1.wordmark mark2.wordmark
  let visual := score_to_enum visual_sim
  let aural := score_to_enum aural_sim
  let conceptual := score_to_enum conceptual_sim
  let overall_score := 40/100 * visual_sim + 35/100 * aural_sim + 25/100 * conceptual_sim
  let overall := score_to_enum overall_score
  { visual := visual
    aural := aural
    conceptual := conceptual
    overall := overall
    reasoning := some ("Calculated from visual (" ++ formatQ2 visual_sim ++
      "), aural (" ++ formatQ2 aural_sim ++ "), and conceptual (" ++
      formatQ2 conceptual_sim ++ ") similarities") }

/-! ## Goods/services likelihood assessor (`llm.py`, lines 631-702) -/

/-- Errors surfaced by the assessor: propagated Reasoning Client failures,
or a wrapped validation failure (`ValueError("LLM output failed validation")`). -/
inductive AssessmentError where
  | llm (e : LlmError)
  | validation (msg : String)
deriving DecidableEq, Repr

/-- Modelled from the spec: `models.py` is not under `src/`, so the pydantic
validation of `GoodServiceLikelihoodOutput` (run when the SDK parses the
response and again by `model_validate` in `generate_gs_likelihood_assessment`)
is reconstructed from the spec's words — §4.6: "if `likelihood_of_confusion`
is false, force `confusion_type` to null (defensive normalization — never
trust upstream to honor the invariant)"; §3: "`confusion_type` is present iff
`likelihood_of_confusion` is true; absent otherwise"; and the field bound
`similarity_score: float in [0,1]` (out-of-range scores fail validation, as
`tests/unit/test_models.py` asserts). -/
def validateGsLikelihoodOutput (raw : GoodServiceLikelihoodOutput) :
    Except String GoodServiceLikelihoodOutput :=
  if ¬ (0 ≤ raw.similarity_score ∧ raw.similarity_score ≤ 1) then
    .error "similarity_score must be within 0 and 1"
  else if raw.likelihood_of_confusion = false then
    .ok { raw with confusion_type := none }
  else
    match raw.confusion_type with
    | some _ => .ok raw
    | none => .error "confusion_type must be present when likelihood_of_confusion is true"

set_option linter.unusedVariables false in
/-- `generate_gs_likelihood_assessment`: build the G/S prompt from the pair
and the mark-similarity context (the oracle `gen` stands for the external
model's behaviour on that prompt), call the Reasoning Client, and validate
the parsed payload; Reasoning Client errors and validation failures both
propagate to the caller. -/
def generate_gs_likelihood_assessment
    (gen : Nat → ℚ → CallResult GoodServiceLikelihoodOutput)
    (model : Option String) (applicant_good opponent_good : GoodService)
    (mark_similarity : MarkSimilarityOutput) :
    Except AssessmentError GoodServiceLikelihoodOutput :=
  match (generate_structured_content gen DEFAULT_TEMPERATURE model).1 with
  | .error e => .error (.llm e)
  | .ok raw =>
      match validateGsLikelihoodOutput raw with
      | .ok validated => .ok validated
      | .error msg => .error (.validation msg)

/-! ## Batch orchestrator (`batch_process_goods_services`, `llm.py` 873-976) -/

/-- `combinations`: the full applicant-major cross-product, in input order. -/
def gsCombinations (applicant_goods opponent_goods : List GoodService) :
    List (GoodService × GoodService) :=
  applicant_goods.flatMap fun applicant_good =>
    opponent_goods.map fun opponent_good => (applicant_good, opponent_good)

/-- `combinations[i:i+batch_size]` chunking with the source's fixed
`batch_size = 3`. -/
def chunk3 {α : Type} : List α → List (List α)
  | [] => []
  | [a] => [[a]]
  | [a, b] => [[a, b]]
  | a :: b :: c :: rest => [a, b, c] :: chunk3 rest

/-- The orchestrator's loop state: `processed_results` plus the
`first_error` captured when `error_count` first became 1. -/
structure BatchState (ε : Type) where
  processed : List GoodServiceLikelihoodOutput
  firstError : Option ε

/-- Handling of one entry of `asyncio.gather(..., return_exceptions=True)`:
an exception bumps the error count (remembering only the first error); a
success is appended to `processed_results`. -/
def stepResult {ε : Type} (st : BatchState ε)
    (r : Except ε GoodServiceLikelihoodOutput) : BatchState ε :=
  match r with
  | .error e =>
      match st.firstError with
      | none => { st with firstError := some e }
      | some e0 => { st with firstError := some e0 }
  | .ok v => { st with processed := st.processed ++ [v] }

/-- `batch_process_goods_services`: form the cross-product of the two goods
lists, process it in chunks of 3 (within a chunk the per-pair assessments run
concurrently and `asyncio.gather` yields their results in task-submission
order), collect successes and remember the first failure; after all chunks,
raise the first error if any occurred, otherwise return the collected
results. `assess` stands for the awaited
`generate_gs_likelihood_assessment(applicant_good, opponent_good,
mark_similarity, model)` call for a pair. -/
def batch_process_goods_services {ε : Type}
    (assess : GoodService → GoodService → Except ε GoodServiceLikelihoodOutput)
    (applicant_goods opponent_goods : List GoodService) :
    Except ε (List GoodServiceLikelihoodOutput) :=
  let combinations := gsCombinations applicant_goods opponent_goods
  let batches := chunk3 combinations
  let final := batches.foldl
    (fun st batch => (batch.map fun p => assess p.1 p.2).foldl stepResult st)
    ⟨[], none⟩
  match final.firstError with
  | some e => .error e
  | none => .ok final.processed

/-! ## The `/case_prediction` endpoint (`api/main.py`, lines 144-219) -/

/-- `case_prediction`: aggregate a mark-similarity verdict and a list of
per-pair likelihood assessments into a final `CasePredictionResult`. The
opposition outcome is computed locally from `all`/`any` over the
`likelihood_of_confusion` flags, with fixed confidences. -/
def case_prediction (request : CasePredictionRequest) : CasePredictionResult :=
  let all_confusion :=
    request.goods_services_likelihoods.all fun gs => gs.likelihood_of_confusion
  let any_confusion :=
    request.goods_services_likelihoods.any fun gs => gs.likelihood_of_confusion
  let opposition_outcome : OppositionOutcome :=
    if all_confusion then
      { result := "Opposition likely to succeed"
        confidence := 9/10
        reasoning := "All goods/services pairings showed a likelihood of confusion when considering the " ++
          request.mark_similarity.overall.str ++
          " mark similarity. Under UK/EU trademark law, this indicates the opposition is likely to succeed across all specifications." }
    else if !any_confusion then
      { result := "Opposition likely to fail"
        confidence := 9/10
        reasoning := "None of the goods/services pairings showed a likelihood of confusion, even when considering the " ++
          request.mark_similarity.overall.str ++
          " mark similarity between the marks. Under UK/EU trademark law, this indicates the opposition is likely to fail entirely." }
    else
      let confused_count :=
        (request.goods_services_likelihoods.filter fun gs => gs.likelihood_of_confusion).length
      let total_count := request.goods_services_likelihoods.length
      { result := "Opposition may partially succeed"
        confidence := 7/10
        reasoning := toString confused_count ++ " out of " ++ toString total_count ++
          " goods/services pairings showed a likelihood of confusion when considering the " ++
          request.mark_similarity.overall.str ++
          " mark similarity. Under UK/EU trademark law, this indicates the opposition may partially succeed, limited to those goods/services where confusion is likely." }
  { mark_comparison := request.mark_similarity
    goods_services_likelihoods := request.goods_services_likelihoods
    opposition_outcome := opposition_outcome }

/-! ## Claims -/

/-- C8: for every pair of input strings, the visual similarity scorer trims
and lower-cases both marks; it returns exactly 1.0 when both normalized marks
are empty, exactly 0.0 when exactly one is empty, and otherwise the
normalized Levenshtein edit-similarity ratio of the normalized strings, a
value in `[0, 1]`; it never raises (it is a total function), and strings
differing only in letter case, such as `"Example"` vs `"EXAMPLE"`, score
exactly 1.0. -/
theorem visual_similarity_contract (mark1 mark2 : String) :
    (0 ≤ calculate_visual_similarity mark1 mark2 ∧
      calculate_visual_similarity mark1 mark2 ≤ 1)
    ∧ (normalizeMark mark1 = [] → normalizeMark mark2 = [] →
        calculate_visual_similarity mark1 mark2 = 1)
    ∧ (normalizeMark mark1 = [] → normalizeMark mark2 ≠ [] →
        calculate_visual_similarity mark1 mark2 = 0)
    ∧ (normalizeMark mark1 ≠ [] → normalizeMark mark2 = [] →
        calculate_visual_similarity mark1 mark2 = 0)
    ∧ (normalizeMark mark1 ≠ [] → normalizeMark mark2 ≠ [] →
        calculate_visual_similarity mark1 mark2 =
          levRatio (normalizeMark mark1) (normalizeMark mark2))
    ∧ calculate_visual_similarity "Example" "EXAMPLE" = 1 := by
  have hcase : ∀ s t : String, normalizeMark s ≠ [] → normalizeMark t ≠ [] →
      calculate_visual_similarity s t = levRatio (normalizeMark s) (normalizeMark t) := by
    intro s t hs ht
    simp [calculate_visual_similarity, hs, ht]
  refine ⟨?_, ?_, ?_, ?_, hcase mark1 mark2, ?_⟩
  · by_cases h1 : normalizeMark mark1 = [] <;> by_cases h2 : normalizeMark mark2 = [] <;>
      simp [calculate_visual_similarity, h1, h2, levRatio_nonneg, levRatio_le_one]
  · intro h1 h2
    simp [calculate_visual_similarity, h1, h2]
  · intro h1 h2
    simp [calculate_visual_similarity, h1, h2]
  · intro h1 h2
    simp [calculate_visual_similarity, h1, h2]
  · have e1 : normalizeMark "Example" = "example".data := by decide
    have e2 : normalizeMark "EXAMPLE" = "example".data := by decide
    rw [hcase _ _ (by rw [e1]; decide) (by rw [e2]; decide), e1, e2, levRatio_self]

/-- C8 witness: the general contract applied at concrete inputs. -/
theorem visual_similarity_contract_witness :
    calculate_visual_similarity " ab" "" = 0 ∧
    calculate_visual_similarity "abc" "abd" =
      levRatio (normalizeMark "abc") (normalizeMark "abd") :=
  ⟨(visual_similarity_contract " ab" "").2.2.2.1 (by decide) (by decide),
   (visual_similarity_contract "abc" "abd").2.2.2.2.1 (by decide) (by decide)⟩

/-- C9: both deterministic scorers are symmetric in their two marks: the
visual Levenshtein ratio is symmetric, and the aural score — the maximum
over the primary/alternate double-metaphone comparison set — is invariant
under swapping the marks, for every phonetic-encoding function `dm`. -/
theorem similarity_scorers_symmetric (dm : List Char → List Char × List Char)
    (a b : String) :
    calculate_visual_similarity a b = calculate_visual_similarity b a ∧
    calculate_aural_similarity dm a b = calculate_aural_similarity dm b a := by
  constructor
  · by_cases h1 : normalizeMark a = [] <;> by_cases h2 : normalizeMark b = [] <;>
      simp [calculate_visual_similarity, h1, h2, levRatio_comm]
  · by_cases h1 : normalizeMark a = [] <;> by_cases h2 : normalizeMark b = []
    · simp [calculate_aural_similarity, h1, h2]
    · simp [calculate_aural_similarity, h1, h2]
    · simp [calculate_aural_similarity, h1, h2]
    · simp only [calculate_aural_similarity, h1, h2]
      by_cases hp1 : (dm (normalizeMark a)).1 = [] <;>
        by_cases ha1 : (dm (normalizeMark a)).2 = [] <;>
        by_cases hp2 : (dm (normalizeMark b)).1 = [] <;>
        by_cases ha2 : (dm (normalizeMark b)).2 = [] <;>
        simp [hp1, ha1, hp2, ha2, listMax, levRatio_comm, max_comm, max_left_comm, max_assoc]

/-- C6: in the standalone deterministic overall-similarity path, each per-axis
score is mapped to a level by the fixed thresholds `>0.9 → identical`,
`>0.7 → high`, `>0.5 → moderate`, `>0.3 → low`, else `dissimilar`; the
overall numeric score is `0.40·visual + 0.35·aural + 0.25·conceptual`; and
the overall level is that weighted score re-mapped through the same
thresholds (all produced levels are `SimilarityLevel` values by
construction). -/
theorem overall_similarity_thresholds_and_weights
    (dm : List Char → List Char × List Char)
    (gen : Nat → ℚ → CallResult ConceptualSimilarityScore)
    (mark1 mark2 : Mark) :
    (∀ s : ℚ,
      (score_to_enum s = .identical ↔ 9/10 < s)
      ∧ (score_to_enum s = .high ↔ 7/10 < s ∧ s ≤ 9/10)
      ∧ (score_to_enum s = .moderate ↔ 5/10 < s ∧ s ≤ 7/10)
      ∧ (score_to_enum s = .low ↔ 3/10 < s ∧ s ≤ 5/10)
      ∧ (score_to_enum s = .dissimilar ↔ s ≤ 3/10))
    ∧ (calculate_overall_similarity dm gen mark1 mark2).visual =
        score_to_enum (calculate_visual_similarity mark1.wordmark mark2.wordmark)
    ∧ (calculate_overall_similarity dm gen mark1 mark2).aural =
        score_to_enum (calculate_aural_similarity dm mark1.wordmark mark2.wordmark)
    ∧ (calculate_overall_similarity dm gen mark1 mark2).conceptual =
        score_to_enum (calculate_conceptual_similarity gen mark1.wordmark mark2.wordmark)
    ∧ (calculate_overall_similarity dm gen mark1 mark2).overall =
        score_to_enum
          (40/100 * calculate_visual_similarity mark1.wordmark mark2.wordmark
           + 35/100 * calculate_aural_similarity dm mark1.wordmark mark2.wordmark
           + 25/100 * calculate_conceptual_similarity gen mark1.wordmark mark2.wordmark) := by
  refine ⟨?_, rfl, rfl, rfl, rfl⟩
  intro s
  unfold score_to_enum
  split_ifs with h1 h2 h3 h4 <;>
    refine ⟨?_, ?_, ?_, ?_, ?_⟩ <;> simp <;>
      first
        | linarith
        | (constructor <;> linarith)
        | (rintro ⟨hu, hv⟩; linarith)
        | (intro hu; linarith)

/-- C5: whenever the Reasoning Client call made by the conceptual similarity
resolver fails — for any error class — the resolver returns the neutral
fallback 0.5 instead of propagating the failure to its caller. -/
theorem conceptual_fallback_on_failure
    (gen : Nat → ℚ → CallResult ConceptualSimilarityScore)
    (model : Option String) (mark1 mark2 : String) (e : LlmError)
    (h : (generate_structured_content gen (1/10) model).1 = .error e) :
    get_conceptual_similarity_score_from_llm gen model mark1 mark2 = 1/2 := by
  unfold get_conceptual_similarity_score_from_llm
  rw [h]

/-- C5 witness: a Reasoning Client that always returns a structurally empty
response makes the resolver fall back to 0.5. -/
theorem conceptual_fallback_on_failure_witness :
    get_conceptual_similarity_score_from_llm (fun _ _ => .empty) none "alpha" "beta" = 1/2 :=
  conceptual_fallback_on_failure (fun _ _ => .empty) none "alpha" "beta" .invalidOutput rfl

/-- C4 counterexample: the conceptual similarity path has no local
coined-mark short-circuit. For the coined marks `"XQZPVY"` vs `"XQZPVN"` the
function's value is whatever the Reasoning Client answers (0.9, or 0.2, for
clients answering those), not the constant 0.0 the claim requires — the
made-up-word rule lives in the prompt text and is applied by the external
model, not by local code. -/
theorem conceptual_no_coined_short_circuit :
    calculate_conceptual_similarity (fun _ _ => .parsed ⟨9/10⟩) "XQZPVY" "XQZPVN" = 9/10
    ∧ calculate_conceptual_similarity (fun _ _ => .parsed ⟨1/5⟩) "XQZPVY" "XQZPVN" = 1/5
    ∧ (9/10 : ℚ) ≠ 0 := by
  refine ⟨rfl, rfl, by norm_num⟩

/-- C4 amended: for every pair of wordmarks — coined or not — the conceptual
similarity function always delegates to the Reasoning Client and returns the
client's parsed score whenever the call succeeds (and 0.5 on failure, see the
C5 theorem); there is no deterministic local coined-mark classification and
no 0.0 short-circuit. -/
theorem conceptual_delegates_to_client
    (gen : Nat → ℚ → CallResult ConceptualSimilarityScore)
    (mark1 mark2 : String) (r : ConceptualSimilarityScore)
    (h : (generate_structured_content gen (1/10) none).1 = .ok r) :
    calculate_conceptual_similarity gen mark1 mark2 = r.score := by
  unfold calculate_conceptual_similarity get_conceptual_similarity_score_from_llm
  rw [h]

/-- C4 amended witness: applied to the coined pair from the claim with a
client answering a non-zero score. -/
theorem conceptual_delegates_to_client_witness :
    calculate_conceptual_similarity (fun _ _ => .parsed ⟨1⟩) "XQZPVY" "XQZPVN" =
      ConceptualSimilarityScore.score ⟨1⟩ :=
  conceptual_delegates_to_client (fun _ _ => .parsed ⟨1⟩) "XQZPVY" "XQZPVN" ⟨1⟩ rfl

/-- Length of the trace of attempts made by the retry loop: at most one per
remaining attempt index, plus what was already recorded. -/
theorem gscLoop_trace_length {α : Type} (gen : Nat → ℚ → CallResult α)
    (temperature : ℚ) (attempts : List Nat) (cur : ℚ) (trace : List ℚ) :
    (gscLoop gen temperature attempts cur trace).2.length ≤
      attempts.length + trace.length := by
  induction attempts generalizing cur trace with
  | nil => simp [gscLoop]
  | cons attempt rest ih =>
    simp only [gscLoop]
    split
    · simp only [List.length_reverse, List.length_cons]
      omega
    · split
      · refine le_trans (ih _ _) ?_
        simp only [List.length_cons]
        omega
      · simp only [List.length_reverse, List.length_cons]
        omega
    · split
      · refine le_trans (ih _ _) ?_
        simp only [List.length_cons]
        omega
      · simp only [List.length_reverse, List.length_cons]
        omega

/-- C7: for every structured-output request, when the response's parsed
output is structurally empty the Reasoning Client makes at most 3 attempts:
each retry raises the temperature by the fixed increment 0.1 per attempt,
capped at 0.6, and after the third empty attempt the loop raises an
invalid-output error rather than looping further; and no request ever makes
more than 3 attempts. -/
theorem structured_retry_bounded {α : Type} (gen : Nat → ℚ → CallResult α)
    (temperature : ℚ) :
    ((∀ n t, gen n t = .empty) →
      generate_structured_content gen temperature none =
        (.error .invalidOutput,
          [temperature,
           min (6/10) (temperature + DEFAULT_TEMPERATURE_INCREMENT * 1),
           min (6/10) (temperature + DEFAULT_TEMPERATURE_INCREMENT * 2)]))
    ∧ (generate_structured_content gen temperature none).2.length ≤ 3 := by
  constructor
  · intro h
    simp [generate_structured_content, gscLoop, h]
  · have := gscLoop_trace_length gen temperature [1, 2, 3] temperature []
    simpa [generate_structured_content] using this

/-- C7 witness: the retry schedule evaluated for an always-empty client at
the default temperature 0.2. -/
theorem structured_retry_bounded_witness :
    generate_structured_content (α := ConceptualSimilarityScore)
        (fun _ _ => .empty) DEFAULT_TEMPERATURE none =
      (.error .invalidOutput,
        [DEFAULT_TEMPERATURE,
         min (6/10) (DEFAULT_TEMPERATURE + DEFAULT_TEMPERATURE_INCREMENT * 1),
         min (6/10) (DEFAULT_TEMPERATURE + DEFAULT_TEMPERATURE_INCREMENT * 2)]) :=
  (structured_retry_bounded (fun _ _ => .empty) DEFAULT_TEMPERATURE).1 (fun _ _ => rfl)

/-- C3: every `GoodServiceLikelihoodOutput` the assessor returns satisfies
the confusion-type invariant — `likelihood_of_confusion = false` iff
`confusion_type = none` — regardless of what the Reasoning Client answered:
a false likelihood has its `confusion_type` forced to `none` by validation,
and a true likelihood without a confusion type fails validation and is never
returned. -/
theorem gs_confusion_type_invariant
    (gen : Nat → ℚ → CallResult GoodServiceLikelihoodOutput)
    (model : Option String) (applicant_good opponent_good : GoodService)
    (mark_similarity : MarkSimilarityOutput)
    (out : GoodServiceLikelihoodOutput)
    (h : generate_gs_likelihood_assessment gen model applicant_good opponent_good
          mark_similarity = .ok out) :
    (out.likelihood_of_confusion = false ↔ out.confusion_type = none) := by
  have hval : ∀ raw v, validateGsLikelihoodOutput raw = .ok v →
      (v.likelihood_of_confusion = false ↔ v.confusion_type = none) := by
    intro raw v hv
    unfold validateGsLikelihoodOutput at hv
    split_ifs at hv with hb hfalse
    · simp only [Except.ok.injEq] at hv
      subst hv
      simp [hfalse]
    · cases hct : raw.confusion_type with
      | none => rw [hct] at hv; cases hv
      | some c =>
        rw [hct] at hv
        simp only [Except.ok.injEq] at hv
        subst hv
        simp [hct]
        simpa using hfalse
  unfold generate_gs_likelihood_assessment at h
  split at h
  · cases h
  · split at h
    · cases h
      exact hval _ _ (by assumption)
    · cases h

/-- C3 witness: a Reasoning Client payload violating the invariant
(`likelihood_of_confusion = false` with a `direct` confusion type) is
normalized by the assessor, and the returned object satisfies the iff. -/
theorem gs_confusion_type_invariant_witness :
    ((GoodServiceLikelihoodOutput.mk true false 0 false none).likelihood_of_confusion = false ↔
      (GoodServiceLikelihoodOutput.mk true false 0 false none).confusion_type = none) :=
  gs_confusion_type_invariant
    (fun _ _ => .parsed ⟨true, false, 0, false, some .direct⟩) none
    ⟨"Software", 9⟩ ⟨"Computer software", 9⟩
    ⟨.moderate, .moderate, .low, .moderate, none⟩
    ⟨true, false, 0, false, none⟩
    (by simp [generate_gs_likelihood_assessment, generate_structured_content, gscLoop,
      validateGsLikelihoodOutput])

/-- Chunking into batches of 3 preserves the underlying sequence. -/
theorem chunk3_flatten {α : Type} (l : List α) : (chunk3 l).flatten = l := by
  induction l using chunk3.induct with
  | case1 => simp [chunk3]
  | case2 a => simp [chunk3]
  | case3 a b => simp [chunk3]
  | case4 a b c rest ih => simp [chunk3, ih]

/-- Folding the result handler over a run of successes appends their values
in order and leaves the error state untouched. -/
theorem stepResult_fold_ok {ε : Type} (vs : List GoodServiceLikelihoodOutput)
    (st : BatchState ε) :
    (vs.map Except.ok).foldl stepResult st =
      ⟨st.processed ++ vs, st.firstError⟩ := by
  induction vs generalizing st with
  | nil => cases st; simp
  | cons v vs ih => simp [stepResult, ih]

/-- Processing chunked batches sequentially equals processing the flattened
sequence. -/
theorem batch_fold_flatten {ε : Type}
    (assess : GoodService → GoodService → Except ε GoodServiceLikelihoodOutput)
    (chunks : List (List (GoodService × GoodService))) (st : BatchState ε) :
    chunks.foldl
        (fun st batch => (batch.map fun p => assess p.1 p.2).foldl stepResult st) st =
      (chunks.flatten.map fun p => assess p.1 p.2).foldl stepResult st := by
  induction chunks generalizing st with
  | nil => simp
  | cons c cs ih => simp [List.foldl_append, ih]

/-- C10: when every pair-assessment succeeds, the Batch Orchestrator returns
exactly the assessments of the full cross-product in deterministic order —
applicant goods in input order and, within each applicant good, opponent
goods in input order — despite the concurrent execution within a chunk
(whose results are collected in task-submission order). -/
theorem batch_preserves_cross_product_order {ε : Type}
    (assess : GoodService → GoodService → Except ε GoodServiceLikelihoodOutput)
    (f : GoodService → GoodService → GoodServiceLikelihoodOutput)
    (h : ∀ a o, assess a o = .ok (f a o))
    (applicant_goods opponent_goods : List GoodService) :
    batch_process_goods_services assess applicant_goods opponent_goods =
      .ok ((gsCombinations applicant_goods opponent_goods).map fun p => f p.1 p.2) := by
  have hmap : ((gsCombinations applicant_goods opponent_goods).map fun p => assess p.1 p.2) =
      ((gsCombinations applicant_goods opponent_goods).map fun p => f p.1 p.2).map
        Except.ok := by
    rw [List.map_map]
    exact List.map_congr_left fun p _ => h p.1 p.2
  simp only [batch_process_goods_services]
  rw [batch_fold_flatten, chunk3_flatten, hmap, stepResult_fold_ok]
  simp

/-- C10 witness: a 2×2 batch where every pair succeeds returns the four
results in applicant-major cross-product order. -/
theorem batch_preserves_cross_product_order_witness :
    batch_process_goods_services (ε := String)
        (fun _ _ => .ok ⟨false, false, 0, false, none⟩)
        [⟨"Software", 9⟩, ⟨"Legal services", 45⟩]
        [⟨"Computer software", 9⟩, ⟨"Business consultancy", 35⟩] =
      .ok ((gsCombinations
          [⟨"Software", 9⟩, ⟨"Legal services", 45⟩]
          [⟨"Computer software", 9⟩, ⟨"Business consultancy", 35⟩]).map
        fun _ => ⟨false, false, 0, false, none⟩) :=
  batch_preserves_cross_product_order
    (fun _ _ => .ok ⟨false, false, 0, false, none⟩)
    (fun _ _ => ⟨false, false, 0, false, none⟩)
    (fun _ _ => rfl) _ _

/-- C2: evaluating the orchestrator at the repository's own test scenario
(`test_batch_process_handles_exceptions`: a 2×2 cross-product where exactly
the pair `"Software"` vs `"Computer software"` fails) shows that the code
raises the first recorded error after processing all pairs — it does NOT
return the three successful assessments that tolerant mode (the spec's
default, and the test's assertion `len(results) == 3`) requires. -/
theorem batch_raises_on_single_failure :
    batch_process_goods_services
        (fun a o =>
          if a.term = "Software" ∧ o.term = "Computer software" then
            .error "Test exception"
          else
            .ok ⟨true, false, 7/10, true, some .direct⟩)
        [⟨"Software", 9⟩, ⟨"Legal services", 45⟩]
        [⟨"Computer software", 9⟩, ⟨"Business consultancy", 35⟩] =
      .error "Test exception" := by
  rfl

/-- C1 counterexample: at a concrete mixed request (one pair confused, one
not) the `/case_prediction` endpoint produces its three-way result and
confidence from the fixed local all/any rule — `"Opposition may partially
succeed"` with confidence exactly 0.7, and 0.9 when all pairs are confused —
with no Reasoning Client involved (the aggregation is a pure function of the
request; no client oracle appears in its definition). -/
theorem case_prediction_fixed_formula :
    (case_prediction
        ⟨⟨.moderate, .moderate, .low, .moderate, none⟩,
         [⟨true, false, 0, true, some .direct⟩,
          ⟨false, false, 0, false, none⟩]⟩).opposition_outcome.result =
      "Opposition may partially succeed"
    ∧ (case_prediction
        ⟨⟨.moderate, .moderate, .low, .moderate, none⟩,
         [⟨true, false, 0, true, some .direct⟩,
          ⟨false, false, 0, false, none⟩]⟩).opposition_outcome.confidence = 7/10
    ∧ (case_prediction
        ⟨⟨.moderate, .moderate, .low, .moderate, none⟩,
         [⟨true, false, 0, true, some .direct⟩]⟩).opposition_outcome.confidence = 9/10 :=
  ⟨rfl, rfl, rfl⟩

/-- C1 amended: for every case-prediction request, the endpoint computes the
opposition outcome locally by the fixed all/any rule over the
`likelihood_of_confusion` flags — all confused → "Opposition likely to
succeed" with confidence 0.9; none confused → "Opposition likely to fail"
with confidence 0.9; otherwise → "Opposition may partially succeed" with
confidence 0.7 — and passes the mark-similarity verdict and the likelihood
list through unchanged; the Reasoning Client is never consulted. -/
theorem case_prediction_all_any_rule (request : CasePredictionRequest) :
    (case_prediction request).mark_comparison = request.mark_similarity
    ∧ (case_prediction request).goods_services_likelihoods =
        request.goods_services_likelihoods
    ∧ (case_prediction request).opposition_outcome.result =
        (if request.goods_services_likelihoods.all (fun gs => gs.likelihood_of_confusion) then
          "Opposition likely to succeed"
        else if request.goods_services_likelihoods.any (fun gs => gs.likelihood_of_confusion) then
          "Opposition may partially succeed"
        else "Opposition likely to fail")
    ∧ (case_prediction request).opposition_outcome.confidence =
        (if request.goods_services_likelihoods.all (fun gs => gs.likelihood_of_confusion) then
          9/10
        else if request.goods_services_likelihoods.any (fun gs => gs.likelihood_of_confusion) then
          7/10
        else 9/10) := by
  refine ⟨rfl, rfl, ?_, ?_⟩ <;>
    · by_cases h1 : request.goods_services_likelihoods.all
          (fun gs => gs.likelihood_of_confusion) = true <;>
      by_cases h2 : request.goods_services_likelihoods.any
          (fun gs => gs.likelihood_of_confusion) = true <;>
      simp [case_prediction, h1, h2]

end Brandability
